import Mathlib

/-!
Verification development for the AOS-CX NAPALM driver
(`napalm_aoscx/aoscx.py`).

The driver's fact-normalization logic is shallowly embedded here: Python
dicts become association lists (`List (κ × α)`) over which assignment
(`dinsert`) follows Python dict semantics (an existing key keeps its
position and gets the new value; a fresh key is appended), and lookup
(`dlookup`) returns the first binding.  Fields the Python code accesses
directly (so that a missing key would raise) are modelled as required
structure fields; fields it probes with `in` / `.get` are `Option`s.
Fallible operations return `Option` / `Except`.
-/

/-- Python dict lookup `d[k]` / `d.get(k)` on an association list:
the value of the first binding of `k`, if any. -/
def dlookup {κ α : Type} [DecidableEq κ] (k : κ) : List (κ × α) → Option α
  | [] => none
  | p :: ps => if p.1 = k then some p.2 else dlookup k ps

/-- Python dict assignment `d[k] = v` (also a one-key `d.update`): an
existing key keeps its position and receives `v`; otherwise the binding
is appended. -/
def dinsert {κ α : Type} [DecidableEq κ] (k : κ) (v : α) (d : List (κ × α)) :
    List (κ × α) :=
  if d.any (fun p => p.1 = k) then
    d.map (fun p => if p.1 = k then (k, v) else p)
  else
    d ++ [(k, v)]

theorem dlookup_append {κ α : Type} [DecidableEq κ]
    (k : κ) (d e : List (κ × α)) :
    dlookup k (d ++ e) =
      match dlookup k d with
      | some v => some v
      | none => dlookup k e := by
  induction d with
  | nil => simp [dlookup]
  | cons p ps ih =>
    by_cases hp : p.1 = k
    · simp [dlookup, hp]
    · simp [dlookup, hp, ih]

theorem dlookup_none_of_not_any {κ α : Type} [DecidableEq κ]
    (k : κ) (d : List (κ × α)) (h : d.any (fun p => p.1 = k) = false) :
    dlookup k d = none := by
  induction d with
  | nil => simp [dlookup]
  | cons p ps ih =>
    simp only [List.any_cons, Bool.or_eq_false_iff, decide_eq_false_iff_not] at h
    simp [dlookup, h.1, ih h.2]

theorem dlookup_map_replace_self {κ α : Type} [DecidableEq κ]
    (k : κ) (v : α) (d : List (κ × α)) (h : d.any (fun p => p.1 = k) = true) :
    dlookup k (d.map (fun p => if p.1 = k then (k, v) else p)) = some v := by
  induction d with
  | nil => simp at h
  | cons p ps ih =>
    by_cases hp : p.1 = k
    · simp [dlookup, hp]
    · simp only [List.any_cons, Bool.or_eq_true, decide_eq_true_eq] at h
      rcases h with h | h
      · exact absurd h hp
      · simp [dlookup, hp, ih h]

theorem dlookup_map_replace_ne {κ α : Type} [DecidableEq κ]
    (k k' : κ) (v : α) (d : List (κ × α)) (hne : k' ≠ k) :
    dlookup k' (d.map (fun p => if p.1 = k then (k, v) else p)) =
      dlookup k' d := by
  induction d with
  | nil => simp [dlookup]
  | cons p ps ih =>
    by_cases hp : p.1 = k
    · have hk : ¬ k = k' := fun hh => hne hh.symm
      simp [dlookup, hp, hk, ih]
    · by_cases hk' : p.1 = k'
      · simp [dlookup, hp, hk', hne]
      · simp [dlookup, hp, hk', ih]

theorem dlookup_dinsert_self {κ α : Type} [DecidableEq κ]
    (k : κ) (v : α) (d : List (κ × α)) :
    dlookup k (dinsert k v d) = some v := by
  unfold dinsert
  by_cases h : d.any (fun p => p.1 = k)
  · simp only [h, if_true]
    exact dlookup_map_replace_self k v d h
  · rw [if_neg h, dlookup_append,
        dlookup_none_of_not_any k d
          (by simp only [Bool.not_eq_true] at h; exact h)]
    simp [dlookup]

theorem dlookup_dinsert_ne {κ α : Type} [DecidableEq κ]
    (k k' : κ) (v : α) (d : List (κ × α)) (hne : k' ≠ k) :
    dlookup k' (dinsert k v d) = dlookup k' d := by
  unfold dinsert
  by_cases h : d.any (fun p => p.1 = k)
  · simp only [h, if_true]
    exact dlookup_map_replace_ne k k' v d hne
  · rw [if_neg h, dlookup_append]
    cases hd : dlookup k' d with
    | some w => rfl
    | none =>
      simp only [dlookup]
      rw [if_neg]
      exact fun hh => hne hh.symm

theorem dlookup_mem {κ α : Type} [DecidableEq κ]
    (k : κ) (v : α) (d : List (κ × α)) (h : dlookup k d = some v) :
    (k, v) ∈ d := by
  induction d with
  | nil => simp [dlookup] at h
  | cons p ps ih =>
    unfold dlookup at h
    by_cases hp : p.1 = k
    · simp only [hp, if_true, Option.some.injEq] at h
      have : p = (k, v) := by
        cases p with
        | mk a b =>
          simp only at hp h
          simp [hp, h]
      simp [this]
    · simp only [hp, if_false] at h
      exact List.mem_cons_of_mem _ (ih h)

/-- Every binding of `dinsert k v d` is either `(k, v)` or a binding of
`d`. -/
theorem mem_dinsert {κ α : Type} [DecidableEq κ]
    (k : κ) (v : α) (d : List (κ × α)) (p : κ × α)
    (h : p ∈ dinsert k v d) : p = (k, v) ∨ p ∈ d := by
  unfold dinsert at h
  by_cases hd : d.any (fun q => q.1 = k)
  · simp only [hd, if_true, List.mem_map] at h
    obtain ⟨q, hq, hqe⟩ := h
    by_cases hk : q.1 = k
    · simp only [hk, if_true] at hqe
      exact Or.inl hqe.symm
    · simp only [hk, if_false] at hqe
      exact Or.inr (hqe ▸ hq)
  · rw [if_neg hd] at h
    rw [List.mem_append, List.mem_singleton] at h
    rcases h with h | h
    · exact Or.inr h
    · exact Or.inl h

/-- A Python value appearing in the CPU / memory sections of the
environment output (string, int, nested dict, or Python `None`). -/
inductive EnvVal
  | s (v : String)
  | i (v : Int)
  | d (entries : List (String × EnvVal))
  | none

/-- One value of the fan mapping shape: either a dict (whose `status`
field the code probes with `in`; `truthy` carries its Python truth value,
since the dict's remaining fields are not modelled) or a non-dict scalar. -/
inductive FanDetail
  | record (status : Option String) (truthy : Bool)
  | scalar (truthy : Bool)
  deriving DecidableEq, Repr

/-- One record of the fan sequence shape (`fan['name']`, `fan['status']`
are accessed directly). -/
structure FanSeqRec where
  name : String
  status : String
  deriving DecidableEq, Repr

/-- The raw fan input of `get_environment`: a dict keyed by fan name, or
a sequence of fan records (`isinstance(fan_details, dict)` dispatch). -/
inductive FanDetails
  | mapping (m : List (String × FanDetail))
  | sequence (s : List FanSeqRec)
  deriving DecidableEq, Repr

/-- One value of the temperature mapping shape (`sensor['temperature']`
and `sensor['status']` are accessed directly). -/
structure TempSensor where
  temperature : Int
  status : String
  deriving DecidableEq, Repr

/-- One record of the temperature sequence shape. -/
structure TempSeqRec where
  location : String
  temperature : Int
  status : String
  deriving DecidableEq, Repr

/-- The raw temperature input of `get_environment`. -/
inductive TempDetails
  | mapping (m : List (String × TempSensor))
  | sequence (s : List TempSeqRec)
  deriving DecidableEq, Repr

/-- One normalized temperature record.  Python's
`float(sensor['temperature'] / 1000)` is modelled as exact rational
division (it is exact for the milli-degree readings involved). -/
structure TempOut where
  temperature : Rat
  is_alert : Bool
  is_critical : Bool
  deriving DecidableEq, Repr

/-- One value of the power-supply mapping shape: a dict probed with
`.get('status')` and `.get('characteristics', {}).get('maximum_power', 0)`,
or a non-dict scalar. -/
inductive PsuSpec
  | record (status : Option String) (characteristics : Option (List (String × Int)))
  | scalar (truthy : Bool)
  deriving DecidableEq, Repr

/-- One record of the power-supply sequence shape (fields accessed
directly). -/
structure PsuSeqRec where
  name : String
  status : String
  maximum_power : Int
  deriving DecidableEq, Repr

/-- The raw power-supply input of `get_environment`. -/
inductive PsuDetails
  | mapping (m : List (String × PsuSpec))
  | sequence (s : List PsuSeqRec)
  deriving DecidableEq, Repr

/-- One normalized power-supply record. -/
structure PsuOut where
  status : Bool
  capacity : Rat
  output : String
  deriving DecidableEq, Repr

/-- One record of the resource-utilization sequence shape
(`mm['name']`, `mm['resource_utilization']['cpu']`,
`mm['resource_utilization']['memory']` accessed directly). -/
structure ModuleResource where
  name : String
  cpu : Int
  memory : Int
  deriving DecidableEq, Repr

/-- The raw resource-utilization input of `get_environment`: one
aggregate dict (probed with `.get`), or a per-module sequence. -/
inductive ResourceDetails
  | mapping (m : List (String × Int))
  | sequence (s : List ModuleResource)
  deriving DecidableEq, Repr

/-- `fan_dict[name] = details['status'] == 'ok'` when the value is a dict
with a `status` field, else `bool(details)`. -/
def fanBool : FanDetail → Bool
  | .record (some st) _ => st == "ok"
  | .record Option.none t => t
  | .scalar t => t

/-- The fan section of `get_environment`. -/
def fansSection : FanDetails → List (String × Bool)
  | .mapping m => m.foldl (fun d p => dinsert p.1 (fanBool p.2) d) []
  | .sequence s => s.foldl (fun d f => dinsert f.name (f.status == "ok") d) []

/-- The normalized record both temperature branches build. -/
def tempOutOf (t : Int) (st : String) : TempOut :=
  { temperature := (t : Rat) / 1000
    is_alert := st == "critical"
    is_critical := st == "emergency" }

/-- The temperature section of `get_environment`. -/
def tempsSection : TempDetails → List (String × TempOut)
  | .mapping m =>
    m.foldl (fun d p => dinsert p.1 (tempOutOf p.2.temperature p.2.status) d) []
  | .sequence s =>
    s.foldl (fun d r => dinsert r.location (tempOutOf r.temperature r.status) d) []

/-- The record the power-supply mapping branch builds from one spec. -/
def psuOutOfSpec : PsuSpec → PsuOut
  | .record st chars =>
    { status := match st with | some s => s == "ok" | Option.none => false
      capacity := (((dlookup "maximum_power" (chars.getD [])).getD 0 : Int) : Rat)
      output := "N/A" }
  | .scalar t => { status := t, capacity := 0, output := "N/A" }

/-- The power section of `get_environment`. -/
def psusSection : PsuDetails → List (String × PsuOut)
  | .mapping m => m.foldl (fun d p => dinsert p.1 (psuOutOfSpec p.2) d) []
  | .sequence s =>
    s.foldl (fun d r =>
      dinsert r.name
        { status := r.status == "ok"
          capacity := (r.maximum_power : Rat)
          output := "N/A" } d) []

/-- `resources_details.get(...)`: present value or Python `None`. -/
def envOfOpt : Option Int → EnvVal
  | some n => .i n
  | Option.none => .none

/-- The CPU and memory sections of `get_environment` (in that order).
In the sequence branch the memory dict is reassigned on every iteration,
so the last module wins; an empty sequence leaves it `{}`. -/
def resourcesSection : ResourceDetails → List (String × EnvVal) × List (String × EnvVal)
  | .mapping m =>
    ([("%usage", envOfOpt (dlookup "cpu" m))],
     [("available_ram", .s "N/A"), ("used_ram", envOfOpt (dlookup "memory" m))])
  | .sequence s =>
    s.foldl
      (fun acc mm =>
        (dinsert mm.name (.d [("%usage", .i mm.cpu)]) acc.1,
         [("available_ram", .s "N/A"), ("used_ram", .i mm.memory)]))
      ([], [])

/-- The five-section result of `get_environment`. -/
structure EnvOut where
  fans : List (String × Bool)
  temperature : List (String × TempOut)
  power : List (String × PsuOut)
  cpu : List (String × EnvVal)
  memory : List (String × EnvVal)

/-- `get_environment`, taking the four raw fetch results as input. -/
def get_environment (f : FanDetails) (t : TempDetails) (p : PsuDetails)
    (r : ResourceDetails) : EnvOut :=
  { fans := fansSection f
    temperature := tempsSection t
    power := psusSection p
    cpu := (resourcesSection r).1
    memory := (resourcesSection r).2 }

/-- Python `len()` of the raw fan input. -/
def FanDetails.size : FanDetails → Nat
  | .mapping m => m.length
  | .sequence s => s.length

/-- Python `len()` of the raw power-supply input. -/
def PsuDetails.size : PsuDetails → Nat
  | .mapping m => m.length
  | .sequence s => s.length

/-- Python `len()` of the raw resource-utilization input. -/
def ResourceDetails.size : ResourceDetails → Nat
  | .mapping m => m.length
  | .sequence s => s.length

/-- `subsystems[key]['product_info']`. -/
structure ProductInfo where
  serial_number : String
  product_name : String
  deriving DecidableEq, Repr

/-- One entry of `switch.subsystems`, restricted to the fields the
driver reads. -/
structure Subsystem where
  product_info : ProductInfo
  fans : FanDetails
  power_supplies : PsuDetails
  resource_utilization : ResourceDetails

/-- The `for key in keys: if cond(key): pick(key); break` scan shared by
the four subsystem lookups; `none` models the undefined result when no
candidate matches (the Python variable is left unset, or the later field
access raises). -/
def firstMatch {beta : Type} (cond : String → Bool) (pick : String → beta) :
    List String → Option beta
  | [] => none
  | k :: ks => if cond k then some (pick k) else firstMatch cond pick ks

/-- The candidate subsystem keys, in source order. -/
def subsystemKeys : List String := ["management_module,1/1", "chassis,1"]

/-- The `product_info` resolution inside `get_facts`: the condition reads
the serial number, the picked value is the whole `product_info`. -/
def factsProductInfo (subs : String → Subsystem) : Option ProductInfo :=
  firstMatch (fun k => decide (0 < (subs k).product_info.serial_number.length))
    (fun k => (subs k).product_info) subsystemKeys

/-- `_get_fan_info`. -/
def get_fan_info (subs : String → Subsystem) : Option FanDetails :=
  firstMatch (fun k => decide (0 < (subs k).fans.size))
    (fun k => (subs k).fans) subsystemKeys

/-- `_get_power_supplies`. -/
def get_power_supplies (subs : String → Subsystem) : Option PsuDetails :=
  firstMatch (fun k => decide (0 < (subs k).power_supplies.size))
    (fun k => (subs k).power_supplies) subsystemKeys

/-- `_get_resource_utilization`. -/
def get_resource_utilization (subs : String → Subsystem) : Option ResourceDetails :=
  firstMatch (fun k => decide (0 < (subs k).resource_utilization.size))
    (fun k => (subs k).resource_utilization) subsystemKeys

/-- Every binding of a Python-style dict built by repeated assignment
(`foldl` of `dinsert`) satisfies any property that the initial dict's
bindings and all inserted bindings satisfy. -/
theorem mem_foldl_dinsert {κ α β : Type} [DecidableEq κ]
    (key : β → κ) (val : β → α) (l : List β) (init : List (κ × α))
    (P : κ × α → Prop)
    (hinit : ∀ p ∈ init, P p) (hf : ∀ b ∈ l, P (key b, val b)) :
    ∀ p ∈ l.foldl (fun d b => dinsert (key b) (val b) d) init, P p := by
  induction l generalizing init with
  | nil => exact hinit
  | cons b bs ih =>
    intro p hp
    refine ih (dinsert (key b) (val b) init) ?_
      (fun q hq => hf q (List.mem_cons_of_mem _ hq)) p hp
    intro q hq
    rcases mem_dinsert _ _ _ _ hq with h | h
    · rw [h]
      exact hf b (List.mem_cons_self b bs)
    · exact hinit q h

/-- A value of the per-interface output dict of `get_interfaces`
(Python bool, string, int, or float). -/
inductive IfVal
  | b (v : Bool)
  | str (v : String)
  | i (v : Int)
  | f (v : Rat)
  deriving DecidableEq, Repr

/-- The fields of one `Interface.get_facts` entry that `get_interfaces`
reads.  `link_state`, `admin_state` and the `hw_intf_info` dict are
accessed directly (required); `description` may be absent or `None`
(hence `Option (Option _)`); `max_speed` and `mac_addr` (inside
`hw_intf_info`, flattened here) and `mtu` are probed with `in`. -/
structure RawInterface where
  link_state : String
  admin_state : String
  description : Option (Option String)
  mtu : Option Int
  max_speed : Option Int
  mac_addr : Option String
  deriving DecidableEq, Repr

/-- The inner dict `get_interfaces` builds for one interface, in source
key order. -/
def normalizeInterface (d : RawInterface) : List (String × IfVal) :=
  [("is_up", .b (d.link_state == "up")),
   ("is_enabled", .b (d.admin_state == "up")),
   ("description", .str (match d.description with
     | some (some s) => s
     | _ => "")),
   ("last_flapped", .f (-1)),
   ("speed", match d.max_speed with
     | some v => .i v
     | Option.none => .str "N/A"),
   ("mtu", match d.mtu with
     | some v => .i v
     | Option.none => .str "N/A"),
   ("mac_address", match d.mac_addr with
     | some v => .str v
     | Option.none => .str "N/A")]

/-- `get_interfaces`, taking the `Interface.get_facts` result as input. -/
def get_interfaces (l : List (String × RawInterface)) :
    List (String × List (String × IfVal)) :=
  l.foldl (fun acc p => dinsert p.1 (normalizeInterface p.2) acc) []

/-- The `statistics` sub-dict of one interface, restricted to the keys
`get_interfaces_counters` probes with `in`. -/
structure IfStatistics where
  tx_bytes : Option Int
  rx_bytes : Option Int
  if_hc_out_unicast_packets : Option Int
  if_hc_in_unicast_packets : Option Int
  if_out_multicast_packets : Option Int
  if_in_multicast_packets : Option Int
  if_out_broadcast_packets : Option Int
  if_in_broadcast_packets : Option Int
  tx_errors : Option Int
  rx_errors : Option Int
  tx_dropped : Option Int
  rx_dropped : Option Int
  deriving DecidableEq, Repr

/-- The twelve-counter output record of `get_interfaces_counters`. -/
structure Counters where
  tx_errors : Int
  rx_errors : Int
  tx_discards : Int
  rx_discards : Int
  tx_octets : Int
  rx_octets : Int
  tx_unicast_packets : Int
  rx_unicast_packets : Int
  tx_multicast_packets : Int
  rx_multicast_packets : Int
  tx_broadcast_packets : Int
  rx_broadcast_packets : Int
  deriving DecidableEq, Repr

/-- The per-interface body of `get_interfaces_counters`: start from the
all-zero record, then overwrite each counter whose source statistic key
is present, in source order. -/
def interfaceCounters (st : IfStatistics) : Counters :=
  let c : Counters := ⟨0, 0, 0, 0, 0, 0, 0, 0, 0, 0, 0, 0⟩
  let c := match st.tx_bytes with
    | some v => { c with tx_octets := v } | Option.none => c
  let c := match st.rx_bytes with
    | some v => { c with rx_octets := v } | Option.none => c
  let c := match st.if_hc_out_unicast_packets with
    | some v => { c with tx_unicast_packets := v } | Option.none => c
  let c := match st.if_hc_in_unicast_packets with
    | some v => { c with rx_unicast_packets := v } | Option.none => c
  let c := match st.if_out_multicast_packets with
    | some v => { c with tx_multicast_packets := v } | Option.none => c
  let c := match st.if_in_multicast_packets with
    | some v => { c with rx_multicast_packets := v } | Option.none => c
  let c := match st.if_out_broadcast_packets with
    | some v => { c with tx_broadcast_packets := v } | Option.none => c
  let c := match st.if_in_broadcast_packets with
    | some v => { c with rx_broadcast_packets := v } | Option.none => c
  let c := match st.tx_errors with
    | some v => { c with tx_errors := v } | Option.none => c
  let c := match st.rx_errors with
    | some v => { c with rx_errors := v } | Option.none => c
  let c := match st.tx_dropped with
    | some v => { c with tx_discards := v } | Option.none => c
  let c := match st.rx_dropped with
    | some v => { c with rx_discards := v } | Option.none => c
  c

/-- `get_interfaces_counters`, taking for each interface the
`statistics` sub-dict of its `Interface.get_facts` entry. -/
def get_interfaces_counters (l : List (String × IfStatistics)) :
    List (String × Counters) :=
  l.foldl (fun acc p => dinsert p.1 (interfaceCounters p.2) acc) []

/-- The value of a hex digit, if `c` is one (`unquote` accepts both
cases). -/
def hexDigitVal (c : Char) : Option Nat :=
  if '0' ≤ c ∧ c ≤ '9' then some (c.toNat - '0'.toNat)
  else if 'a' ≤ c ∧ c ≤ 'f' then some (c.toNat - 'a'.toNat + 10)
  else if 'A' ≤ c ∧ c ≤ 'F' then some (c.toNat - 'A'.toNat + 10)
  else none

/-- `urllib.parse.unquote` over the character list, for single-byte
(ASCII) percent escapes — the interface identifiers involved; an
invalid escape keeps its `%` literally, as in Python. -/
def unquoteChars : List Char → List Char
  | '%' :: a :: b :: rest =>
    match hexDigitVal a, hexDigitVal b with
    | some ha, some hb => Char.ofNat (16 * ha + hb) :: unquoteChars rest
    | _, _ => '%' :: unquoteChars (a :: b :: rest)
  | c :: rest => c :: unquoteChars rest
  | [] => []

/-- `urllib.parse.unquote` on strings. -/
def unquote (s : String) : String := ⟨unquoteChars s.data⟩

/-- The `\w` class of the fallback slug regex, for ASCII input. -/
def isWordChar (c : Char) : Bool := c.isAlphanum || c == '_'

/-- `re.sub(r'[^\w]+', '-', x)`: collapse each maximal run of non-word
characters to one `-`; `prevSep` records whether the previous character
belonged to such a run. -/
def collapseNonWord : List Char → Bool → List Char
  | [], _ => []
  | c :: rest, prevSep =>
    if isWordChar c then c :: collapseNonWord rest false
    else if prevSep then collapseNonWord rest true
    else '-' :: collapseNonWord rest true

/-- `.strip('-')`. -/
def stripDash (l : List Char) : List Char :=
  ((l.dropWhile (· == '-')).reverse.dropWhile (· == '-')).reverse

/-- The driver's fallback `slugify` (used when django is unavailable):
collapse non-word runs to `-`, strip `-` at both ends, lower-case. -/
def slugify (s : String) : String :=
  ⟨(stripDash (collapseNonWord s.data false)).map Char.toLower⟩

/-- The `neighbor_info` dict of one neighbor; every field is probed with
`.get`. -/
structure NeighborInfo where
  chassis_name : Option String
  port_description : Option String
  chassis_description : Option String
  chassis_capability_available : Option (List String)
  chassis_capability_enabled : Option (List String)
  deriving DecidableEq, Repr

/-- One raw neighbor record; every field is probed with `.get`. -/
structure NbrData where
  chassis_id : Option String
  port_id : Option String
  neighbor_info : Option NeighborInfo
  deriving DecidableEq, Repr

/-- One normalized LLDP-detail entry. -/
structure LLDPEntry where
  parent_interface : String
  remote_chassis_id : String
  remote_system_name : String
  remote_port : String
  remote_port_description : String
  remote_system_description : String
  remote_system_capab : String
  remote_system_enable_capab : String
  deriving DecidableEq, Repr

/-- The entry dict built for one neighbor: `.get` defaults are `''`,
`{}` and `[]`; each capability list is lower-cased element-wise and
concatenated into one string. -/
def buildEntry (decoded : String) (nd : NbrData) : LLDPEntry :=
  let ni := nd.neighbor_info.getD
    ⟨Option.none, Option.none, Option.none, Option.none, Option.none⟩
  { parent_interface := decoded
    remote_chassis_id := nd.chassis_id.getD ""
    remote_system_name := ni.chassis_name.getD ""
    remote_port := nd.port_id.getD ""
    remote_port_description := ni.port_description.getD ""
    remote_system_description := ni.chassis_description.getD ""
    remote_system_capab :=
      String.join ((ni.chassis_capability_available.getD []).map String.toLower)
    remote_system_enable_capab :=
      String.join ((ni.chassis_capability_enabled.getD []).map String.toLower) }

/-- The entry list built for one raw interface key. -/
def buildEntries (decoded : String) (details : List (String × NbrData)) :
    List LLDPEntry :=
  details.map (fun p => buildEntry decoded p.2)

/-- The dict comprehension `{unquote(raw): raw for raw in raw_lldp}`. -/
def decodedMapOf (raw : List (String × List (String × NbrData))) :
    List (String × String) :=
  raw.foldl (fun d p => dinsert (unquote p.1) p.1 d) []

/-- `get_lldp_neighbors_detail` after a successful fetch: `raw` is the
`LLDPNeighbor.get_facts` result, `intf` the requested interface (`""`
requests all, matching Python's truthiness test).  An unknown requested
interface yields the empty dict; each processed raw key publishes its
entry list under the decoded name, the slug form, and the
`"Int "`-prefixed display name. -/
def get_lldp_neighbors_detail (raw : List (String × List (String × NbrData)))
    (intf : String) : List (String × List LLDPEntry) :=
  let rawKeys : Option (List String) :=
    if intf = "" then some (raw.map Prod.fst)
    else match dlookup intf (decodedMapOf raw) with
      | some rk => some [rk]
      | Option.none => Option.none
  match rawKeys with
  | Option.none => []
  | some keys =>
    keys.foldl
      (fun acc rk =>
        let decoded := unquote rk
        let entries := buildEntries decoded ((dlookup rk raw).getD [])
        dinsert ("Int " ++ decoded) entries
          (dinsert (slugify decoded) entries (dinsert decoded entries acc)))
      []

/-- The VLAN-membership fields of one interface's facts: each is a dict
keyed by VLAN-id strings (the keys are kept), possibly absent or
`None`. -/
structure VlanIntfFacts where
  applied_vlan_trunks : Option (Option (List String))
  applied_vlan_tag : Option (Option (List String))
  deriving DecidableEq, Repr

/-- One output record of `get_vlans`. -/
structure VlanEntry where
  name : String
  interfaces : List String
  deriving DecidableEq, Repr

/-- The `'k' in facts and facts['k'] and len(facts['k']) > 0` test of
`get_vlans`: the field's key list when present, non-`None` and
non-empty. -/
def presentNonempty : Option (Option (List String)) → Option (List String)
  | some (some l) => if 0 < l.length then some l else Option.none
  | _ => Option.none

/-- The membership-source selection of `get_vlans`: the trunk dict
first, else the tag dict, else nothing. -/
def membershipList (f : VlanIntfFacts) : Option (List String) :=
  match presentNonempty f.applied_vlan_trunks with
  | some l => some l
  | Option.none => presentNonempty f.applied_vlan_tag

/-- Decimal digit accumulation for `pyInt`. -/
def parseDigitsAux (acc : Nat) : List Char → Option Nat
  | [] => some acc
  | c :: cs =>
    if c.isDigit then parseDigitsAux (10 * acc + (c.toNat - '0'.toNat)) cs
    else none

/-- Python `int()` on a VLAN-id string, modelled for the
optional-sign-and-digits forms the ids take; `none` models the
`ValueError` on malformed input. -/
def pyInt (s : String) : Option Int :=
  match s.data with
  | [] => none
  | ['-'] => none
  | '-' :: c :: cs => (parseDigitsAux 0 (c :: cs)).map (fun n => -(n : Int))
  | c :: cs => (parseDigitsAux 0 (c :: cs)).map (fun n => (n : Int))

/-- `vlan_json[vid]['interfaces'].append(intf)`; `none` models the
`KeyError` when `vid` has no entry. -/
def appendToVlan (vid : Int) (intf : String) :
    List (Int × VlanEntry) → Option (List (Int × VlanEntry))
  | [] => Option.none
  | (i, e) :: rest =>
    if i = vid then
      some ((i, { e with interfaces := e.interfaces ++ [intf] }) :: rest)
    else match appendToVlan vid intf rest with
      | some r => some ((i, e) :: r)
      | Option.none => Option.none

/-- `get_vlans`, taking the `Vlan.get_facts` result (id-string ↦ name)
and the `Interface.get_facts` result restricted to the membership
fields; only interfaces whose name contains `'/'` are scanned.  `none`
models an uncaught exception (malformed id, or a membership VLAN id
absent from the skeleton). -/
def get_vlans (vlans : List (String × String))
    (ifs : List (String × VlanIntfFacts)) : Option (List (Int × VlanEntry)) := do
  let skeleton ← vlans.foldlM
    (fun vj p => do
      let vid ← pyInt p.1
      pure (dinsert vid (⟨p.2, []⟩ : VlanEntry) vj))
    ([] : List (Int × VlanEntry))
  let physical := ifs.filter (fun p => p.1.data.contains '/')
  physical.foldlM
    (fun vj p =>
      match membershipList p.2 with
      | Option.none => pure vj
      | some l => do
        let vids ← l.mapM pyInt
        vids.foldlM (fun vj2 vid => appendToVlan vid p.1 vj2) vj)
    skeleton

/-- Python `key.split(',')` over the character list, with accumulator
`acc` holding the current (reversed) fragment. -/
def splitCommaAux (acc : List Char) : List Char → List (List Char)
  | [] => [acc.reverse]
  | c :: cs =>
    if c = ',' then acc.reverse :: splitCommaAux [] cs
    else splitCommaAux (c :: acc) cs

/-- Python `key.split(',')`. -/
def splitComma (s : String) : List String :=
  (splitCommaAux [] s.data).map (fun l => ⟨l⟩)

/-- One raw MAC-table value: the parent VLAN id and the keys of its
`port` dict (the code takes the first). -/
structure MacObj where
  vlan_id : Int
  port_keys : List String
  deriving DecidableEq, Repr

/-- One output record of `get_mac_address_table`; `moves` and
`last_move` are always Python `None`. -/
structure MacEntry where
  mac : String
  interface : String
  vlan : Int
  static : Bool
  active : Bool
  moves : Option Int
  last_move : Option Rat
  deriving DecidableEq, Repr

/-- The record built from one compound key and its MAC object; `none`
models the `IndexError` when the key has no comma or the port dict is
empty. -/
def mkMacEntry (key : String) (obj : MacObj) : Option MacEntry :=
  match splitComma key with
  | ty :: addr :: _ =>
    match obj.port_keys.head? with
    | some port =>
      some { mac := addr, interface := port, vlan := obj.vlan_id,
             static := (ty == "static"), active := true,
             moves := Option.none, last_move := Option.none }
    | Option.none => Option.none
  | _ => Option.none

/-- Processing of one VLAN's MAC dict: only the first key is examined. -/
def processVlanDict : List (String × MacObj) → Option MacEntry
  | [] => Option.none
  | (key, obj) :: _ => mkMacEntry key obj

/-- `get_mac_address_table`, taking one raw `Mac.get_all` dict per VLAN
(in `Vlan.get_all` iteration order): dicts with zero entries are
filtered out, then each remaining dict contributes the record of its
first compound key. -/
def get_mac_address_table (macDicts : List (List (String × MacObj))) :
    Option (List MacEntry) :=
  (macDicts.filter (fun d => decide (0 < d.length))).mapM processVlanDict

/-- `get_interfaces` over the fallible fetch: there is no handler, so a
fetch error propagates. -/
def get_interfaces_exc {ε : Type}
    (fetch : Except ε (List (String × RawInterface))) :
    Except ε (List (String × List (String × IfVal))) := do
  let r ← fetch
  pure (get_interfaces r)

/-- `get_interfaces_counters` over the fallible fetch: no handler. -/
def get_interfaces_counters_exc {ε : Type}
    (fetch : Except ε (List (String × IfStatistics))) :
    Except ε (List (String × Counters)) := do
  let r ← fetch
  pure (get_interfaces_counters r)

/-- `get_environment` over its four fallible fetches, issued in source
order: no handler. -/
def get_environment_exc {ε : Type} (ff : Except ε FanDetails)
    (ft : Except ε TempDetails) (fp : Except ε PsuDetails)
    (fr : Except ε ResourceDetails) : Except ε EnvOut := do
  let f ← ff
  let t ← ft
  let p ← fp
  let r ← fr
  pure (get_environment f t p r)

/-- `get_vlans` over its two fallible fetches: no handler. -/
def get_vlans_exc {ε : Type} (fv : Except ε (List (String × String)))
    (fi : Except ε (List (String × VlanIntfFacts))) :
    Except ε (Option (List (Int × VlanEntry))) := do
  let v ← fv
  let i ← fi
  pure (get_vlans v i)

/-- `get_mac_address_table` over the fallible fetch: no handler. -/
def get_mac_address_table_exc {ε : Type}
    (fetch : Except ε (List (List (String × MacObj)))) :
    Except ε (Option (List MacEntry)) := do
  let r ← fetch
  pure (get_mac_address_table r)

/-- `get_lldp_neighbors_detail` over the fallible fetch: the
`try/except Exception` around the fetch catches every error and returns
the empty dict instead of re-raising. -/
def get_lldp_neighbors_detail_exc {ε : Type} (intf : String)
    (fetch : Except ε (List (String × List (String × NbrData)))) :
    Except ε (List (String × List LLDPEntry)) :=
  match fetch with
  | .error _ => .ok []
  | .ok r => .ok (get_lldp_neighbors_detail r intf)

theorem firstMatch_two {beta : Type} (cond : String → Bool)
    (pick : String → beta) (a b : String) :
    firstMatch cond pick [a, b] =
      if cond a then some (pick a)
      else if cond b then some (pick b)
      else none := rfl

/-- C1: each subsystem-scoped fact lookup (product info, fans, power
supplies, resource utilization) tries the candidate keys in the fixed
order management-module slot then chassis, takes the first candidate
whose relevant sub-field is non-empty, and yields no defined result
(`none`) when no candidate has non-empty data. -/
theorem subsystem_fallback_priority (subs : String → Subsystem) :
    (factsProductInfo subs =
      if 0 < (subs "management_module,1/1").product_info.serial_number.length then
        some (subs "management_module,1/1").product_info
      else if 0 < (subs "chassis,1").product_info.serial_number.length then
        some (subs "chassis,1").product_info
      else none) ∧
    (get_fan_info subs =
      if 0 < (subs "management_module,1/1").fans.size then
        some (subs "management_module,1/1").fans
      else if 0 < (subs "chassis,1").fans.size then
        some (subs "chassis,1").fans
      else none) ∧
    (get_power_supplies subs =
      if 0 < (subs "management_module,1/1").power_supplies.size then
        some (subs "management_module,1/1").power_supplies
      else if 0 < (subs "chassis,1").power_supplies.size then
        some (subs "chassis,1").power_supplies
      else none) ∧
    (get_resource_utilization subs =
      if 0 < (subs "management_module,1/1").resource_utilization.size then
        some (subs "management_module,1/1").resource_utilization
      else if 0 < (subs "chassis,1").resource_utilization.size then
        some (subs "chassis,1").resource_utilization
      else none) := by
  refine ⟨?_, ?_, ?_, ?_⟩ <;>
    simp only [factsProductInfo, get_fan_info, get_power_supplies,
      get_resource_utilization, subsystemKeys, firstMatch_two,
      decide_eq_true_eq]

/-- C2 counterexample: the per-interface dict `get_interfaces` builds
carries the key `last_flapped`, which is not among the six keys the
claim allows. -/
theorem get_interfaces_six_keys_counterexample :
    dlookup "1/1/1"
        (get_interfaces
          [("1/1/1",
            ⟨"up", "up", Option.none, Option.none, Option.none, Option.none⟩)]) =
      some (normalizeInterface
        ⟨"up", "up", Option.none, Option.none, Option.none, Option.none⟩) ∧
    "last_flapped" ∈
      (normalizeInterface
        ⟨"up", "up", Option.none, Option.none, Option.none, Option.none⟩).map
        Prod.fst ∧
    "last_flapped" ∉
      ["is_up", "is_enabled", "description", "speed", "mtu", "mac_address"] := by
  refine ⟨?_, ?_, ?_⟩ <;> decide

/-- C2 (amended): every per-interface dict in the `get_interfaces`
output has exactly the seven keys is_up, is_enabled, description,
last_flapped, speed, mtu, mac_address (in source order), and `is_up` /
`is_enabled` are the booleans `link_state == "up"` /
`admin_state == "up"`. -/
theorem get_interfaces_keys_and_states
    (l : List (String × RawInterface)) (name : String)
    (out : List (String × IfVal)) (d : RawInterface)
    (h : dlookup name (get_interfaces l) = some out) :
    out.map Prod.fst =
      ["is_up", "is_enabled", "description", "last_flapped", "speed",
       "mtu", "mac_address"] ∧
    dlookup "is_up" (normalizeInterface d) =
      some (.b (d.link_state == "up")) ∧
    dlookup "is_enabled" (normalizeInterface d) =
      some (.b (d.admin_state == "up")) := by
  refine ⟨?_, rfl, rfl⟩
  have hmem := dlookup_mem name out (get_interfaces l) h
  simp only [get_interfaces] at hmem
  exact mem_foldl_dinsert (fun p => p.1) (fun p => normalizeInterface p.2) l []
    (fun p => p.2.map Prod.fst =
      ["is_up", "is_enabled", "description", "last_flapped", "speed",
       "mtu", "mac_address"])
    (fun p hp => absurd hp (List.not_mem_nil p))
    (fun b _ => rfl)
    (name, out) hmem

theorem get_interfaces_keys_and_states_witness :
    dlookup "1/1/1"
        (get_interfaces
          [("1/1/1",
            ⟨"up", "down", Option.none, Option.none, Option.none, Option.none⟩)]) =
      some (normalizeInterface
        ⟨"up", "down", Option.none, Option.none, Option.none, Option.none⟩) ∧
    ((normalizeInterface
        ⟨"up", "down", Option.none, Option.none, Option.none, Option.none⟩).map
        Prod.fst =
      ["is_up", "is_enabled", "description", "last_flapped", "speed",
       "mtu", "mac_address"] ∧
    dlookup "is_up" (normalizeInterface
        ⟨"up", "down", Option.none, Option.none, Option.none, Option.none⟩) =
      some (.b ("up" == "up")) ∧
    dlookup "is_enabled" (normalizeInterface
        ⟨"up", "down", Option.none, Option.none, Option.none, Option.none⟩) =
      some (.b ("down" == "up"))) :=
  ⟨by decide,
   get_interfaces_keys_and_states
     [("1/1/1", ⟨"up", "down", Option.none, Option.none, Option.none, Option.none⟩)]
     "1/1/1"
     (normalizeInterface
       ⟨"up", "down", Option.none, Option.none, Option.none, Option.none⟩)
     ⟨"up", "down", Option.none, Option.none, Option.none, Option.none⟩
     (by decide)⟩

/-- C3: in the `get_interfaces` output, a missing or `None` source
`description` yields `""`; missing `max_speed`, `mtu` or `mac_addr`
yield the literal string `"N/A"`; and `last_flapped` is always the
float -1.0. -/
theorem interface_field_defaults (d : RawInterface) :
    ((d.description = Option.none ∨ d.description = some Option.none) →
      dlookup "description" (normalizeInterface d) = some (.str "")) ∧
    (d.max_speed = Option.none →
      dlookup "speed" (normalizeInterface d) = some (.str "N/A")) ∧
    (d.mtu = Option.none →
      dlookup "mtu" (normalizeInterface d) = some (.str "N/A")) ∧
    (d.mac_addr = Option.none →
      dlookup "mac_address" (normalizeInterface d) = some (.str "N/A")) ∧
    dlookup "last_flapped" (normalizeInterface d) = some (.f (-1)) := by
  refine ⟨?_, ?_, ?_, ?_, rfl⟩
  · rintro (h | h) <;> simp [normalizeInterface, dlookup, h]
  · intro h
    simp [normalizeInterface, dlookup, h]
  · intro h
    simp [normalizeInterface, dlookup, h]
  · intro h
    simp [normalizeInterface, dlookup, h]

theorem interface_field_defaults_witness :
    ((⟨"up", "up", Option.none, Option.none, Option.none, Option.none⟩ :
        RawInterface).description = Option.none ∨
      (⟨"up", "up", Option.none, Option.none, Option.none, Option.none⟩ :
        RawInterface).description = some Option.none) ∧
    dlookup "description"
        (normalizeInterface
          ⟨"up", "up", Option.none, Option.none, Option.none, Option.none⟩) =
      some (.str "") ∧
    dlookup "speed"
        (normalizeInterface
          ⟨"up", "up", Option.none, Option.none, Option.none, Option.none⟩) =
      some (.str "N/A") ∧
    dlookup "mtu"
        (normalizeInterface
          ⟨"up", "up", Option.none, Option.none, Option.none, Option.none⟩) =
      some (.str "N/A") ∧
    dlookup "mac_address"
        (normalizeInterface
          ⟨"up", "up", Option.none, Option.none, Option.none, Option.none⟩) =
      some (.str "N/A") ∧
    dlookup "last_flapped"
        (normalizeInterface
          ⟨"up", "up", Option.none, Option.none, Option.none, Option.none⟩) =
      some (.f (-1)) := by
  have h := interface_field_defaults
    ⟨"up", "up", Option.none, Option.none, Option.none, Option.none⟩
  exact ⟨Or.inl rfl, h.1 (Or.inl rfl), h.2.1 rfl, h.2.2.1 rfl,
    h.2.2.2.1 rfl, h.2.2.2.2⟩

/-- Fan content (name, status) rendered in the mapping shape: one dict
value per fan carrying its status (such a dict is truthy). -/
def fanMappingOf (c : List FanSeqRec) : FanDetails :=
  .mapping (c.map (fun f => (f.name, .record (some f.status) true)))

/-- The same fan content in the sequence shape. -/
def fanSequenceOf (c : List FanSeqRec) : FanDetails := .sequence c

/-- Temperature content rendered in the mapping shape. -/
def tempMappingOf (c : List TempSeqRec) : TempDetails :=
  .mapping (c.map (fun r => (r.location, ⟨r.temperature, r.status⟩)))

/-- The same temperature content in the sequence shape. -/
def tempSequenceOf (c : List TempSeqRec) : TempDetails := .sequence c

/-- Power-supply content rendered in the mapping shape. -/
def psuMappingOf (c : List PsuSeqRec) : PsuDetails :=
  .mapping (c.map (fun r =>
    (r.name, .record (some r.status) (some [("maximum_power", r.maximum_power)]))))

/-- The same power-supply content in the sequence shape. -/
def psuSequenceOf (c : List PsuSeqRec) : PsuDetails := .sequence c

/-- Resource content (cpu, memory) rendered in the mapping shape: the
aggregate dict. -/
def resourceMappingOf (cpu mem : Int) : ResourceDetails :=
  .mapping [("cpu", cpu), ("memory", mem)]

/-- The same resource content in the sequence shape: one module record. -/
def resourceSequenceOf (mm : ModuleResource) : ResourceDetails :=
  .sequence [mm]

/-- C4 counterexample: with the same resource content (cpu 5, memory 10)
in the two shapes, the cpu sections of the normalized output do not even
have the same keys — the mapping shape yields a single `%usage` entry,
the sequence shape a per-module-name entry. -/
theorem environment_shape_counterexample :
    (get_environment (fanSequenceOf []) (tempSequenceOf []) (psuSequenceOf [])
        (resourceMappingOf 5 10)).cpu.map Prod.fst ≠
      (get_environment (fanSequenceOf []) (tempSequenceOf []) (psuSequenceOf [])
        (resourceSequenceOf ⟨"management_module,1/1", 5, 10⟩)).cpu.map
        Prod.fst := by
  decide

/-- C4 (amended): mapping-shape and sequence-shape inputs with the same
content produce identical fans, temperature, power and memory sections;
the cpu section is not shape-invariant (see the counterexample). -/
theorem environment_shape_equivalence
    (fc : List FanSeqRec) (tc : List TempSeqRec) (pc : List PsuSeqRec)
    (mm : ModuleResource) :
    (get_environment (fanMappingOf fc) (tempMappingOf tc) (psuMappingOf pc)
        (resourceMappingOf mm.cpu mm.memory)).fans =
      (get_environment (fanSequenceOf fc) (tempSequenceOf tc)
        (psuSequenceOf pc) (resourceSequenceOf mm)).fans ∧
    (get_environment (fanMappingOf fc) (tempMappingOf tc) (psuMappingOf pc)
        (resourceMappingOf mm.cpu mm.memory)).temperature =
      (get_environment (fanSequenceOf fc) (tempSequenceOf tc)
        (psuSequenceOf pc) (resourceSequenceOf mm)).temperature ∧
    (get_environment (fanMappingOf fc) (tempMappingOf tc) (psuMappingOf pc)
        (resourceMappingOf mm.cpu mm.memory)).power =
      (get_environment (fanSequenceOf fc) (tempSequenceOf tc)
        (psuSequenceOf pc) (resourceSequenceOf mm)).power ∧
    (get_environment (fanMappingOf fc) (tempMappingOf tc) (psuMappingOf pc)
        (resourceMappingOf mm.cpu mm.memory)).memory =
      (get_environment (fanSequenceOf fc) (tempSequenceOf tc)
        (psuSequenceOf pc) (resourceSequenceOf mm)).memory := by
  refine ⟨?_, ?_, ?_, ?_⟩
  · simp [get_environment, fansSection, fanMappingOf, fanSequenceOf,
      List.foldl_map, fanBool]
  · simp [get_environment, tempsSection, tempMappingOf, tempSequenceOf,
      List.foldl_map]
  · simp [get_environment, psusSection, psuMappingOf, psuSequenceOf,
      List.foldl_map, psuOutOfSpec, dlookup]
  · simp [get_environment, resourcesSection, resourceMappingOf,
      resourceSequenceOf, dlookup, envOfOpt]

/-- C5 counterexample: `get_lldp_neighbors_detail` catches the fetch
error and returns the empty dict instead of letting it propagate. -/
theorem lldp_detail_error_swallowed :
    get_lldp_neighbors_detail_exc ""
        (Except.error "timeout" :
          Except String (List (String × List (String × NbrData)))) =
      Except.ok [] ∧
    (Except.ok ([] : List (String × List LLDPEntry)) :
        Except String (List (String × List LLDPEntry))) ≠
      Except.error "timeout" := by
  exact ⟨rfl, by simp⟩

/-- C5 (amended): every modelled fact-gathering operation except
`get_lldp_neighbors_detail` propagates a fetch error unmodified to the
caller; `get_lldp_neighbors_detail` catches any fetch error and returns
the empty dict instead. -/
theorem fetch_error_propagation {eps : Type} (e : eps) (intf : String)
    (ft : Except eps TempDetails) (fp : Except eps PsuDetails)
    (fr : Except eps ResourceDetails)
    (fi : Except eps (List (String × VlanIntfFacts))) :
    get_interfaces_exc (Except.error e) = Except.error e ∧
    get_interfaces_counters_exc (Except.error e) = Except.error e ∧
    get_environment_exc (Except.error e) ft fp fr = Except.error e ∧
    get_vlans_exc (Except.error e) fi = Except.error e ∧
    get_mac_address_table_exc (Except.error e) = Except.error e ∧
    get_lldp_neighbors_detail_exc intf (Except.error e) = Except.ok [] := by
  exact ⟨rfl, rfl, rfl, rfl, rfl, rfl⟩

/-- A fold of dict assignments whose keys all differ from `k` leaves the
binding of `k` unchanged. -/
theorem dlookup_foldl_dinsert_of_ne {κ α β : Type} [DecidableEq κ]
    (key : β → κ) (val : β → α) (l : List β) (init : List (κ × α)) (k : κ)
    (h : ∀ b ∈ l, key b ≠ k) :
    dlookup k (l.foldl (fun d b => dinsert (key b) (val b) d) init) =
      dlookup k init := by
  induction l generalizing init with
  | nil => rfl
  | cons b bs ih =>
    rw [List.foldl_cons, ih _ (fun q hq => h q (List.mem_cons_of_mem _ hq)),
        dlookup_dinsert_ne _ _ _ _
          (fun hh => h b (List.mem_cons_self b bs) hh.symm)]

theorem dlookup_dinsert3 {α : Type} (k k1 k2 k3 : String) (v : α)
    (d : List (String × α)) (h : k = k1 ∨ k = k2 ∨ k = k3) :
    dlookup k (dinsert k3 v (dinsert k2 v (dinsert k1 v d))) = some v := by
  by_cases h3 : k = k3
  · rw [h3, dlookup_dinsert_self]
  · rw [dlookup_dinsert_ne _ _ _ _ h3]
    by_cases h2 : k = k2
    · rw [h2, dlookup_dinsert_self]
    · rw [dlookup_dinsert_ne _ _ _ _ h2]
      rcases h with h | h | h
      · rw [h, dlookup_dinsert_self]
      · exact absurd h h2
      · exact absurd h h3

/-- C6: with a specific interface requested, `get_lldp_neighbors_detail`
returns the empty dict (and no error) when no URL-decoded raw key equals
the request; and when the decoded-key dict maps the request to raw key
`rk`, the entry list built from `rk`'s neighbors is retrievable under
the decoded interface name, its slug form, and its display-name form. -/
theorem lldp_detail_filter_and_aliases
    (raw : List (String × List (String × NbrData))) (intf rk : String)
    (hintf : intf ≠ "") :
    (raw.all (fun p => unquote p.1 != intf) = true →
      get_lldp_neighbors_detail raw intf = []) ∧
    (dlookup intf (decodedMapOf raw) = some rk →
      (dlookup intf (get_lldp_neighbors_detail raw intf) =
        some (buildEntries intf ((dlookup rk raw).getD [])) ∧
       dlookup (slugify intf) (get_lldp_neighbors_detail raw intf) =
        some (buildEntries intf ((dlookup rk raw).getD [])) ∧
       dlookup ("Int " ++ intf) (get_lldp_neighbors_detail raw intf) =
        some (buildEntries intf ((dlookup rk raw).getD [])))) := by
  constructor
  · intro hall
    have hne : ∀ p ∈ raw, unquote p.1 ≠ intf := by
      intro p hp
      have := List.all_eq_true.mp hall p hp
      simpa using this
    have hnone : dlookup intf (decodedMapOf raw) = none := by
      have := dlookup_foldl_dinsert_of_ne (fun p => unquote p.1)
        (fun p => p.1) raw [] intf hne
      simpa [decodedMapOf, dlookup] using this
    simp [get_lldp_neighbors_detail, hintf, hnone]
  · intro hfound
    have hpair := dlookup_mem intf rk (decodedMapOf raw) hfound
    have hdec : intf = unquote rk := by
      have hinv := mem_foldl_dinsert (fun p => unquote p.1) (fun p => p.1)
        raw [] (fun p => p.1 = unquote p.2)
        (fun p hp => absurd hp (List.not_mem_nil p))
        (fun b _ => rfl)
        (intf, rk) (by simpa [decodedMapOf] using hpair)
      exact hinv
    have hres : get_lldp_neighbors_detail raw intf =
        dinsert ("Int " ++ unquote rk)
          (buildEntries (unquote rk) ((dlookup rk raw).getD []))
          (dinsert (slugify (unquote rk))
            (buildEntries (unquote rk) ((dlookup rk raw).getD []))
            (dinsert (unquote rk)
              (buildEntries (unquote rk) ((dlookup rk raw).getD [])) [])) := by
      simp [get_lldp_neighbors_detail, hintf, hfound]
    rw [hres, ← hdec]
    exact ⟨dlookup_dinsert3 _ _ _ _ _ _ (Or.inl rfl),
           dlookup_dinsert3 _ _ _ _ _ _ (Or.inr (Or.inl rfl)),
           dlookup_dinsert3 _ _ _ _ _ _ (Or.inr (Or.inr rfl))⟩

theorem lldp_detail_filter_and_aliases_witness :
    ("1/1/1" : String) ≠ "" ∧
    dlookup "1/1/1"
        (decodedMapOf
          [("1%2F1%2F1",
            [("n1", ⟨some "cid", some "p1",
              some ⟨some "peer", some "pd", some "sd",
                some ["Bridge", "Router"], some ["Router"]⟩⟩)])]) =
      some "1%2F1%2F1" ∧
    (dlookup "1/1/1"
        (get_lldp_neighbors_detail
          [("1%2F1%2F1",
            [("n1", ⟨some "cid", some "p1",
              some ⟨some "peer", some "pd", some "sd",
                some ["Bridge", "Router"], some ["Router"]⟩⟩)])] "1/1/1") =
      some (buildEntries "1/1/1"
        ((dlookup "1%2F1%2F1"
          [("1%2F1%2F1",
            [("n1", ⟨some "cid", some "p1",
              some ⟨some "peer", some "pd", some "sd",
                some ["Bridge", "Router"], some ["Router"]⟩⟩)])]).getD [])) ∧
     dlookup "1-1-1"
        (get_lldp_neighbors_detail
          [("1%2F1%2F1",
            [("n1", ⟨some "cid", some "p1",
              some ⟨some "peer", some "pd", some "sd",
                some ["Bridge", "Router"], some ["Router"]⟩⟩)])] "1/1/1") =
      some (buildEntries "1/1/1"
        ((dlookup "1%2F1%2F1"
          [("1%2F1%2F1",
            [("n1", ⟨some "cid", some "p1",
              some ⟨some "peer", some "pd", some "sd",
                some ["Bridge", "Router"], some ["Router"]⟩⟩)])]).getD [])) ∧
     dlookup "Int 1/1/1"
        (get_lldp_neighbors_detail
          [("1%2F1%2F1",
            [("n1", ⟨some "cid", some "p1",
              some ⟨some "peer", some "pd", some "sd",
                some ["Bridge", "Router"], some ["Router"]⟩⟩)])] "1/1/1") =
      some (buildEntries "1/1/1"
        ((dlookup "1%2F1%2F1"
          [("1%2F1%2F1",
            [("n1", ⟨some "cid", some "p1",
              some ⟨some "peer", some "pd", some "sd",
                some ["Bridge", "Router"], some ["Router"]⟩⟩)])]).getD []))) := by
  refine ⟨by decide, by decide, ?_⟩
  have h := (lldp_detail_filter_and_aliases
    [("1%2F1%2F1",
      [("n1", ⟨some "cid", some "p1",
        some ⟨some "peer", some "pd", some "sd",
          some ["Bridge", "Router"], some ["Router"]⟩⟩)])]
    "1/1/1" "1%2F1%2F1" (by decide)).2 (by decide)
  have hslug : slugify "1/1/1" = "1-1-1" := by decide
  exact ⟨h.1, hslug ▸ h.2.1, h.2.2⟩

/-- C7: only interfaces whose identifier contains `'/'` are scanned for
VLAN membership; the membership source is the trunk dict when present
and non-empty, else the tag dict when present and non-empty, else the
interface contributes nothing; and the claim's concrete example
normalizes as stated. -/
theorem vlan_membership
    (vlans : List (String × String)) (ifs : List (String × VlanIntfFacts))
    (f : VlanIntfFacts) (l : List String) (hl : 0 < l.length) :
    (get_vlans vlans ifs =
      get_vlans vlans (ifs.filter (fun p => p.1.data.contains '/'))) ∧
    (f.applied_vlan_trunks = some (some l) → membershipList f = some l) ∧
    (presentNonempty f.applied_vlan_trunks = Option.none →
      f.applied_vlan_tag = some (some l) → membershipList f = some l) ∧
    (presentNonempty f.applied_vlan_trunks = Option.none →
      presentNonempty f.applied_vlan_tag = Option.none →
      membershipList f = Option.none) ∧
    get_vlans [("10", "default"), ("20", "data")]
        [("1/1/1", ⟨Option.none, some (some ["10"])⟩)] =
      some [(10, ⟨"default", ["1/1/1"]⟩), (20, ⟨"data", []⟩)] := by
  refine ⟨?_, ?_, ?_, ?_, by decide⟩
  · simp [get_vlans, List.filter_filter]
  · intro h
    simp [membershipList, presentNonempty, h, hl]
  · intro h1 h2
    simp only [membershipList, h1]
    simp [presentNonempty, h2, hl]
  · intro h1 h2
    simp only [membershipList, h1, h2]

theorem vlan_membership_witness :
    0 < (["10", "20"] : List String).length ∧
    ((get_vlans [("10", "default")] [("mgmt", ⟨Option.none, Option.none⟩)] =
      get_vlans [("10", "default")]
        (([("mgmt", ⟨Option.none, Option.none⟩)] :
          List (String × VlanIntfFacts)).filter
          (fun p => p.1.data.contains '/'))) ∧
    ((⟨some (some ["10", "20"]), Option.none⟩ :
        VlanIntfFacts).applied_vlan_trunks = some (some ["10", "20"]) →
      membershipList ⟨some (some ["10", "20"]), Option.none⟩ =
        some ["10", "20"]) ∧
    (presentNonempty (⟨some (some ["10", "20"]), Option.none⟩ :
        VlanIntfFacts).applied_vlan_trunks = Option.none →
      (⟨some (some ["10", "20"]), Option.none⟩ :
        VlanIntfFacts).applied_vlan_tag = some (some ["10", "20"]) →
      membershipList ⟨some (some ["10", "20"]), Option.none⟩ =
        some ["10", "20"]) ∧
    (presentNonempty (⟨some (some ["10", "20"]), Option.none⟩ :
        VlanIntfFacts).applied_vlan_trunks = Option.none →
      presentNonempty (⟨some (some ["10", "20"]), Option.none⟩ :
        VlanIntfFacts).applied_vlan_tag = Option.none →
      membershipList ⟨some (some ["10", "20"]), Option.none⟩ = Option.none) ∧
    get_vlans [("10", "default"), ("20", "data")]
        [("1/1/1", ⟨Option.none, some (some ["10"])⟩)] =
      some [(10, ⟨"default", ["1/1/1"]⟩), (20, ⟨"data", []⟩)]) :=
  ⟨by decide,
   vlan_membership [("10", "default")] [("mgmt", ⟨Option.none, Option.none⟩)]
     ⟨some (some ["10", "20"]), Option.none⟩ ["10", "20"] (by decide)⟩

/-- When the keys of the fold's entries are distinct, the dict built by
repeated assignment maps each entry's key to that entry's value. -/
theorem dlookup_foldl_dinsert_nodup {κ α β : Type} [DecidableEq κ]
    (key : β → κ) (val : β → α) (l : List β) (init : List (κ × α))
    (b : β) (hmem : b ∈ l) (hnodup : (l.map key).Nodup) :
    dlookup (key b)
        (l.foldl (fun d q => dinsert (key q) (val q) d) init) =
      some (val b) := by
  induction l generalizing init with
  | nil => exact absurd hmem (List.not_mem_nil b)
  | cons q qs ih =>
    rw [List.foldl_cons]
    have hn := List.nodup_cons.mp
      (show (key q :: qs.map key).Nodup by simpa using hnodup)
    rcases List.mem_cons.mp hmem with hb | hb
    · subst hb
      have hq : ∀ r ∈ qs, key r ≠ key b :=
        fun r hr heq => hn.1 (heq ▸ List.mem_map_of_mem key hr)
      rw [dlookup_foldl_dinsert_of_ne key val qs _ (key b) hq,
          dlookup_dinsert_self]
    · exact ih (dinsert (key q) (val q) init) hb hn.2

set_option maxHeartbeats 1600000 in
/-- The sequential overwrite chain of `get_interfaces_counters` is the
field-wise `getD 0` of the source statistics. -/
theorem interfaceCounters_eq (st : IfStatistics) :
    interfaceCounters st =
      { tx_errors := st.tx_errors.getD 0
        rx_errors := st.rx_errors.getD 0
        tx_discards := st.tx_dropped.getD 0
        rx_discards := st.rx_dropped.getD 0
        tx_octets := st.tx_bytes.getD 0
        rx_octets := st.rx_bytes.getD 0
        tx_unicast_packets := st.if_hc_out_unicast_packets.getD 0
        rx_unicast_packets := st.if_hc_in_unicast_packets.getD 0
        tx_multicast_packets := st.if_out_multicast_packets.getD 0
        rx_multicast_packets := st.if_in_multicast_packets.getD 0
        tx_broadcast_packets := st.if_out_broadcast_packets.getD 0
        rx_broadcast_packets := st.if_in_broadcast_packets.getD 0 } := by
  obtain ⟨a, b, c, d, e, f, g, h, i, j, k, m⟩ := st
  cases a <;> cases b <;> cases c <;> cases d <;> cases e <;> cases f <;>
    cases g <;> cases h <;> cases i <;> cases j <;> cases k <;> cases m <;>
    rfl

/-- C8: when the interface names are distinct (as dict keys are), each
interface's output record in `get_interfaces_counters` is the field-wise
normalization of its statistics: every counter is the source statistic
when its key is present and integer 0 when absent, with the discard
counters taken from the platform's `tx_dropped` / `rx_dropped`. -/
theorem counters_defaults (l : List (String × IfStatistics))
    (name : String) (st : IfStatistics)
    (hnodup : (l.map Prod.fst).Nodup) (hmem : (name, st) ∈ l) :
    dlookup name (get_interfaces_counters l) =
      some (interfaceCounters st) ∧
    (interfaceCounters st).tx_errors = st.tx_errors.getD 0 ∧
    (interfaceCounters st).rx_errors = st.rx_errors.getD 0 ∧
    (interfaceCounters st).tx_discards = st.tx_dropped.getD 0 ∧
    (interfaceCounters st).rx_discards = st.rx_dropped.getD 0 ∧
    (interfaceCounters st).tx_octets = st.tx_bytes.getD 0 ∧
    (interfaceCounters st).rx_octets = st.rx_bytes.getD 0 ∧
    (interfaceCounters st).tx_unicast_packets =
      st.if_hc_out_unicast_packets.getD 0 ∧
    (interfaceCounters st).rx_unicast_packets =
      st.if_hc_in_unicast_packets.getD 0 ∧
    (interfaceCounters st).tx_multicast_packets =
      st.if_out_multicast_packets.getD 0 ∧
    (interfaceCounters st).rx_multicast_packets =
      st.if_in_multicast_packets.getD 0 ∧
    (interfaceCounters st).tx_broadcast_packets =
      st.if_out_broadcast_packets.getD 0 ∧
    (interfaceCounters st).rx_broadcast_packets =
      st.if_in_broadcast_packets.getD 0 := by
  refine ⟨?_, ?_, ?_, ?_, ?_, ?_, ?_, ?_, ?_, ?_, ?_, ?_, ?_⟩
  · have := dlookup_foldl_dinsert_nodup
      (fun p : String × IfStatistics => p.1)
      (fun p => interfaceCounters p.2) l [] (name, st) hmem hnodup
    simpa [get_interfaces_counters] using this
  all_goals rw [interfaceCounters_eq]

theorem counters_defaults_witness :
    (([("1/1/1",
        (⟨Option.none, some 5, Option.none, Option.none, Option.none,
          Option.none, Option.none, Option.none, Option.none, Option.none,
          some 7, Option.none⟩ : IfStatistics))] :
      List (String × IfStatistics)).map Prod.fst).Nodup ∧
    ("1/1/1",
      (⟨Option.none, some 5, Option.none, Option.none, Option.none,
        Option.none, Option.none, Option.none, Option.none, Option.none,
        some 7, Option.none⟩ : IfStatistics)) ∈
      ([("1/1/1",
        (⟨Option.none, some 5, Option.none, Option.none, Option.none,
          Option.none, Option.none, Option.none, Option.none, Option.none,
          some 7, Option.none⟩ : IfStatistics))] :
        List (String × IfStatistics)) ∧
    dlookup "1/1/1"
        (get_interfaces_counters
          [("1/1/1",
            ⟨Option.none, some 5, Option.none, Option.none, Option.none,
              Option.none, Option.none, Option.none, Option.none,
              Option.none, some 7, Option.none⟩)]) =
      some (interfaceCounters
        ⟨Option.none, some 5, Option.none, Option.none, Option.none,
          Option.none, Option.none, Option.none, Option.none, Option.none,
          some 7, Option.none⟩) ∧
    (interfaceCounters
        ⟨Option.none, some 5, Option.none, Option.none, Option.none,
          Option.none, Option.none, Option.none, Option.none, Option.none,
          some 7, Option.none⟩).tx_discards = 7 ∧
    (interfaceCounters
        ⟨Option.none, some 5, Option.none, Option.none, Option.none,
          Option.none, Option.none, Option.none, Option.none, Option.none,
          some 7, Option.none⟩).tx_errors = 0 := by
  have h := counters_defaults
    [("1/1/1",
      ⟨Option.none, some 5, Option.none, Option.none, Option.none,
        Option.none, Option.none, Option.none, Option.none, Option.none,
        some 7, Option.none⟩)]
    "1/1/1"
    ⟨Option.none, some 5, Option.none, Option.none, Option.none,
      Option.none, Option.none, Option.none, Option.none, Option.none,
      some 7, Option.none⟩
    (by decide) (by decide)
  exact ⟨by decide, by decide, h.1, by rw [h.2.2.2.1]; rfl,
    by rw [h.2.1]; rfl⟩

theorem splitCommaAux_append (a b : List Char) (acc : List Char)
    (ha : ',' ∉ a) :
    splitCommaAux acc (a ++ ',' :: b) =
      (acc.reverse ++ a) :: splitCommaAux [] b := by
  induction a generalizing acc with
  | nil => simp [splitCommaAux]
  | cons c cs ih =>
    have hc : ¬ c = ',' := fun hh => ha (hh ▸ List.mem_cons_self c cs)
    have hcs : ',' ∉ cs := fun hh => ha (List.mem_cons_of_mem c hh)
    simp [splitCommaAux, hc, ih (c :: acc) hcs, List.append_assoc]

theorem splitCommaAux_no_comma (b : List Char) (acc : List Char)
    (hb : ',' ∉ b) :
    splitCommaAux acc b = [acc.reverse ++ b] := by
  induction b generalizing acc with
  | nil => simp [splitCommaAux]
  | cons c cs ih =>
    have hc : ¬ c = ',' := fun hh => hb (hh ▸ List.mem_cons_self c cs)
    have hcs : ',' ∉ cs := fun hh => hb (List.mem_cons_of_mem c hh)
    simp [splitCommaAux, hc, ih (c :: acc) hcs]

/-- C9: in `get_mac_address_table`, per-VLAN dicts with zero entries are
dropped; a compound key of the form `type,address` is split at the comma
so that the record has `static = (type == "static")` and `mac` = the
address part; and `active` is always true while `moves` and `last_move`
are always `None` (visible in the record literal below). -/
theorem mac_table_parse (key : String) (tyl addrl : List Char)
    (obj : MacObj) (macDicts : List (List (String × MacObj)))
    (hks : key.data = tyl ++ ',' :: addrl)
    (hty : ',' ∉ tyl) (haddr : ',' ∉ addrl) :
    get_mac_address_table ([] :: macDicts) =
      get_mac_address_table macDicts ∧
    mkMacEntry key obj =
      (obj.port_keys.head?).map (fun port =>
        { mac := ⟨addrl⟩, interface := port, vlan := obj.vlan_id,
          static := ((⟨tyl⟩ : String) == "static"), active := true,
          moves := Option.none, last_move := Option.none }) := by
  constructor
  · simp [get_mac_address_table]
  · have hsplit : splitComma key = [⟨tyl⟩, ⟨addrl⟩] := by
      simp [splitComma, hks, splitCommaAux_append tyl addrl [] hty,
        splitCommaAux_no_comma addrl [] haddr]
    cases hpk : obj.port_keys.head? with
    | none => simp [mkMacEntry, hsplit, hpk]
    | some port => simp [mkMacEntry, hsplit, hpk]

theorem mac_table_parse_witness :
    ("static,aa:bb:cc:dd:ee:ff" : String).data =
      ("static" : String).data ++ ',' :: ("aa:bb:cc:dd:ee:ff" : String).data ∧
    ',' ∉ ("static" : String).data ∧
    ',' ∉ ("aa:bb:cc:dd:ee:ff" : String).data ∧
    (get_mac_address_table
        ([] :: ([] : List (List (String × MacObj)))) =
      get_mac_address_table ([] : List (List (String × MacObj))) ∧
    mkMacEntry "static,aa:bb:cc:dd:ee:ff" ⟨10, ["1/1/1"]⟩ =
      ((⟨10, ["1/1/1"]⟩ : MacObj).port_keys.head?).map (fun port =>
        { mac := ⟨("aa:bb:cc:dd:ee:ff" : String).data⟩,
          interface := port, vlan := (⟨10, ["1/1/1"]⟩ : MacObj).vlan_id,
          static := ((⟨("static" : String).data⟩ : String) == "static"),
          active := true,
          moves := Option.none, last_move := Option.none })) :=
  ⟨by decide, by decide, by decide,
   mac_table_parse "static,aa:bb:cc:dd:ee:ff"
     ("static" : String).data ("aa:bb:cc:dd:ee:ff" : String).data
     ⟨10, ["1/1/1"]⟩ []
     (by decide) (by decide) (by decide)⟩

/-- C10: for every VLAN whose MAC dict is non-empty,
`get_mac_address_table` emits exactly one record — the one built from
the dict's first compound key — ignoring every later entry: processing
one dict looks only at its head, and the table maps each retained dict
to that single record. -/
theorem mac_table_first_entry_only :
    (∀ (k : String) (o : MacObj) (rest : List (String × MacObj)),
      processVlanDict ((k, o) :: rest) = mkMacEntry k o) ∧
    (∀ macDicts : List (List (String × MacObj)),
      get_mac_address_table macDicts =
        (macDicts.filter (fun d => decide (0 < d.length))).mapM
          processVlanDict) ∧
    get_mac_address_table
        [[("static,aa:bb:cc:dd:ee:ff", ⟨10, ["1/1/1"]⟩),
          ("dynamic,11:22:33:44:55:66", ⟨10, ["1/1/2"]⟩)]] =
      some [⟨"aa:bb:cc:dd:ee:ff", "1/1/1", 10, true, true,
        Option.none, Option.none⟩] := by
  exact ⟨fun k o rest => rfl, fun m => rfl, by decide⟩
